import Mathlib

/-!
Verification development for the cost-projection and anomaly-detection
analytics of the landscaping client tracker (src/database.py).

The SQL queries and Python arithmetic of `get_client_statistics`,
`get_all_client_statistics`, `get_visits_with_anomalous_durations`,
`get_setting`, `get_hourly_rate` and `get_all_clients` are shallowly
embedded: table rows become lists of structures, SQL aggregates become
list folds, SQLite REAL arithmetic becomes exact rational arithmetic,
and Python's `round` (round-half-to-even) becomes `pyRound`.
-/

/-- Round-half-to-even to the nearest integer, the tie-breaking rule of
Python's built-in `round` (modelled on exact rationals). -/
def rne (x : ℚ) : ℤ :=
  let f := ⌊x⌋
  let r := x - (f : ℚ)
  if r < 1/2 then f
  else if (1:ℚ)/2 < r then f + 1
  else if f % 2 = 0 then f else f + 1

/-- Model of Python's `round(x, n)` for `n` decimal digits. -/
def pyRound (n : ℕ) (x : ℚ) : ℚ := (rne (x * 10 ^ n) : ℚ) / 10 ^ n

/-- A rational has at most `d` decimal digits: it is an integer multiple
of `10 ^ (-d)`. -/
def Rounded (d : ℕ) (q : ℚ) : Prop := ∃ z : ℤ, q = (z : ℚ) / 10 ^ d

/-- Row of the `clients` table (the columns the analytics read). -/
structure Client where
  id : ℕ
  name : String
  monthlyCharge : ℚ
  isActive : Bool
deriving Repr

/-- Row of the `visits` table.  `inCurrentYear` embeds the SQL predicate
`strftime('%Y', visit_date) = str(current_year)` as a precomputed flag. -/
structure Visit where
  id : ℕ
  clientId : ℕ
  durationMinutes : ℚ
  inCurrentYear : Bool
deriving Repr

/-- Row of `client_materials` joined with `materials`, as read by the
configured-cost queries. -/
structure ClientMaterialRow where
  clientId : ℕ
  isEnabled : Bool
  customCost : Option ℚ
  defaultCost : ℚ
  multiplier : ℚ
  materialType : String
deriving Repr

/-- Row of `visit_materials` joined through its visit to the owning
client and joined with `materials`, as read by the visit-cost queries. -/
structure VisitMaterialRow where
  clientId : ℕ
  quantity : ℚ
  costAtTime : ℚ
  materialType : String
deriving Repr

/-- Snapshot of the database tables consumed by the analytics. -/
structure DB where
  clients : List Client
  visits : List Visit
  clientMaterials : List ClientMaterialRow
  visitMaterials : List VisitMaterialRow
  settings : List (String × String)
deriving Repr

/-- COALESCE(cm.custom_cost, m.default_cost). -/
def ClientMaterialRow.effectiveCost (r : ClientMaterialRow) : ℚ :=
  r.customCost.getD r.defaultCost

/-- SELECT * FROM visits WHERE client_id = cid. -/
def visitsOf (db : DB) (cid : ℕ) : List Visit :=
  db.visits.filter (fun v => v.clientId == cid)

/-- SELECT COUNT(*) FROM visits WHERE client_id = cid. -/
def visitCountOf (db : DB) (cid : ℕ) : ℕ := (visitsOf db cid).length

/-- SELECT COUNT(*) FROM visits WHERE client_id = cid AND
strftime('%Y', visit_date) = current year. -/
def visitsThisYearOf (db : DB) (cid : ℕ) : ℕ :=
  ((visitsOf db cid).filter Visit.inCurrentYear).length

/-- COALESCE(SUM(duration_minutes), 0) over the client's visits. -/
def totalDurationOf (db : DB) (cid : ℕ) : ℚ :=
  ((visitsOf db cid).map Visit.durationMinutes).sum

/-- COALESCE(AVG(duration_minutes), 0) over the client's visits:
SQL AVG is sum/count on a nonempty group and NULL (coalesced to 0)
on an empty one. -/
def avgDurationOf (db : DB) (cid : ℕ) : ℚ :=
  if visitCountOf db cid = 0 then 0
  else totalDurationOf db cid / (visitCountOf db cid : ℚ)

/-- SQL MIN with COALESCE(_, 0): minimum of a nonempty list, else 0. -/
def sqlMin : List ℚ → ℚ
  | [] => 0
  | x :: xs => xs.foldl min x

/-- SQL MAX with COALESCE(_, 0): maximum of a nonempty list, else 0. -/
def sqlMax : List ℚ → ℚ
  | [] => 0
  | x :: xs => xs.foldl max x

/-- COALESCE(MIN(duration_minutes), 0) over the client's visits. -/
def minDurationOf (db : DB) (cid : ℕ) : ℚ :=
  sqlMin ((visitsOf db cid).map Visit.durationMinutes)

/-- COALESCE(MAX(duration_minutes), 0) over the client's visits. -/
def maxDurationOf (db : DB) (cid : ℕ) : ℚ :=
  sqlMax ((visitsOf db cid).map Visit.durationMinutes)

/-- The configured-cost query: COALESCE(SUM(COALESCE(custom_cost,
default_cost) * multiplier), 0) over enabled client_materials rows of the
client whose material has the given type. -/
def configuredCostOf (db : DB) (cid : ℕ) (mtype : String) : ℚ :=
  ((db.clientMaterials.filter
      (fun r => r.clientId == cid && r.isEnabled && r.materialType == mtype)).map
    (fun r => r.effectiveCost * r.multiplier)).sum

/-- The visit-cost query: COALESCE(SUM(quantity * cost_at_time), 0) over
visit_materials rows joined through visits to the client, restricted to
the given material type. -/
def visitMaterialCostOf (db : DB) (cid : ℕ) (mtype : String) : ℚ :=
  ((db.visitMaterials.filter
      (fun r => r.clientId == cid && r.materialType == mtype)).map
    (fun r => r.quantity * r.costAtTime)).sum

/-- SELECT value FROM settings WHERE key = ?, with the Python-side
default when no row matches (get_setting). -/
def get_setting (settings : List (String × String)) (key dflt : String) : String :=
  match settings.find? (fun p => p.fst == key) with
  | some p => p.snd
  | none => dflt

/-- Leading digits of a character list as a natural number. -/
def digitsToNat (cs : List Char) : ℕ :=
  cs.foldl (fun n c => n * 10 + (c.toNat - 48)) 0

/-- Split a character list at the first dot. -/
def splitAtDot : List Char → List Char × List Char
  | [] => ([], [])
  | c :: cs =>
    if c = '.' then ([], cs)
    else
      let p := splitAtDot cs
      (c :: p.fst, p.snd)

/-- Model of Python's float() on the plain decimal literals the settings
store holds (digits with an optional fractional part). -/
def parseDecimal (s : String) : ℚ :=
  let p := splitAtDot s.toList
  (digitsToNat p.fst : ℚ) + (digitsToNat p.snd : ℚ) / 10 ^ p.snd.length

/-- get_hourly_rate: float(get_setting('hourly_rate', '25.00')). -/
def get_hourly_rate (settings : List (String × String)) : ℚ :=
  parseDecimal (get_setting settings "hourly_rate" "25.00")

/-- The statistics record returned by get_client_statistics and (per row)
by get_all_client_statistics, with one typed field per dict key. -/
structure ClientStatistics where
  client_id : ℕ
  client_name : String
  visit_count : ℕ
  visits_this_year : ℕ
  total_material_cost : ℚ
  total_service_cost : ℚ
  total_materials_services_cost : ℚ
  configured_materials_cost_yearly : ℚ
  configured_services_cost_yearly : ℚ
  projected_yearly_labor_cost : ℚ
  avg_time_per_visit : ℚ
  min_time_per_visit : ℚ
  max_time_per_visit : ℚ
  total_labor_cost : ℚ
  avg_cost_per_visit : ℚ
  est_yearly_cost : ℚ
  proposed_monthly_rate : ℚ
  actual_monthly_charge : ℚ
  monthly_profit_loss : ℚ
  is_profitable : Bool
  hourly_rate : ℚ
deriving Repr

/-- The dict keys of the record returned by get_client_statistics (and by
each row of get_all_client_statistics), in source order. -/
def clientStatisticsKeys : List String :=
  ["client_id", "client_name", "visit_count", "visits_this_year",
   "total_material_cost", "total_service_cost", "total_materials_services_cost",
   "configured_materials_cost_yearly", "configured_services_cost_yearly",
   "projected_yearly_labor_cost", "avg_time_per_visit", "min_time_per_visit",
   "max_time_per_visit", "total_labor_cost", "avg_cost_per_visit",
   "est_yearly_cost", "proposed_monthly_rate", "actual_monthly_charge",
   "monthly_profit_loss", "is_profitable", "hourly_rate"]

/-- Body of get_client_statistics after the client row has been fetched:
the per-client queries followed by the Python arithmetic, with the local
variables of the source bound by let. -/
def singleStats (db : DB) (rate : ℚ) (client : Client) (cid : ℕ) : ClientStatistics :=
  let visit_count := visitCountOf db cid
  let visits_this_year := visitsThisYearOf db cid
  let configured_materials_cost_yearly := configuredCostOf db cid "material"
  let configured_services_cost_yearly := configuredCostOf db cid "service"
  let visit_material_cost := visitMaterialCostOf db cid "material"
  let visit_service_cost := visitMaterialCostOf db cid "service"
  let total_material_cost := configured_materials_cost_yearly + visit_material_cost
  let total_service_cost := configured_services_cost_yearly + visit_service_cost
  let total_materials_services_cost := total_material_cost + total_service_cost
  let avg_time_per_visit := avgDurationOf db cid
  let min_time_per_visit := minDurationOf db cid
  let max_time_per_visit := maxDurationOf db cid
  let total_time := totalDurationOf db cid
  let total_labor_cost := total_time / 60 * 2 * rate
  let total_cost := total_labor_cost + total_materials_services_cost
  let avg_cost_per_visit := if 0 < visit_count then total_cost / (visit_count : ℚ) else 0
  let avg_labor_cost_per_visit := avg_time_per_visit / 60 * 2 * rate
  let projected_yearly_labor_cost := avg_labor_cost_per_visit * 52
  let est_yearly_cost :=
    projected_yearly_labor_cost + configured_materials_cost_yearly + configured_services_cost_yearly
  let proposed_monthly_rate := est_yearly_cost / 12
  let actual_monthly_charge := client.monthlyCharge
  let profit_loss := actual_monthly_charge - proposed_monthly_rate
  { client_id := cid
    client_name := client.name
    visit_count := visit_count
    visits_this_year := visits_this_year
    total_material_cost := pyRound 2 total_material_cost
    total_service_cost := pyRound 2 total_service_cost
    total_materials_services_cost := pyRound 2 total_materials_services_cost
    configured_materials_cost_yearly := pyRound 2 configured_materials_cost_yearly
    configured_services_cost_yearly := pyRound 2 configured_services_cost_yearly
    projected_yearly_labor_cost := pyRound 2 projected_yearly_labor_cost
    avg_time_per_visit := pyRound 1 avg_time_per_visit
    min_time_per_visit := pyRound 1 min_time_per_visit
    max_time_per_visit := pyRound 1 max_time_per_visit
    total_labor_cost := pyRound 2 total_labor_cost
    avg_cost_per_visit := pyRound 2 avg_cost_per_visit
    est_yearly_cost := pyRound 2 est_yearly_cost
    proposed_monthly_rate := pyRound 2 proposed_monthly_rate
    actual_monthly_charge := pyRound 2 actual_monthly_charge
    monthly_profit_loss := pyRound 2 profit_loss
    is_profitable := decide (0 ≤ profit_loss)
    hourly_rate := pyRound 2 rate }

/-- get_client_statistics: empty result when the client row is absent,
otherwise the statistics record. -/
def get_client_statistics (db : DB) (cid : ℕ) : Option ClientStatistics :=
  match db.clients.find? (fun c => c.id == cid) with
  | none => none
  | some client => some (singleStats db (get_hourly_rate db.settings) client cid)

/-- Body of the get_all_client_statistics result loop for one fetched
row: the CTEs of the batch query compute per client exactly the grouped
aggregates of the single-client queries (COALESCEd to 0 for clients
without rows), and the Python loop arithmetic differs from the
single-client path only in substituting 1 for a zero visit count before
dividing. -/
def batchStatsRow (db : DB) (rate : ℚ) (c : Client) : ClientStatistics :=
  let visit_count := visitCountOf db c.id
  let visits_this_year := visitsThisYearOf db c.id
  let configured_materials_cost_yearly := configuredCostOf db c.id "material"
  let configured_services_yearly := configuredCostOf db c.id "service"
  let visit_material_cost := visitMaterialCostOf db c.id "material"
  let visit_service_cost := visitMaterialCostOf db c.id "service"
  let total_material_cost := configured_materials_cost_yearly + visit_material_cost
  let total_service_cost := configured_services_yearly + visit_service_cost
  let total_materials_services_cost := total_material_cost + total_service_cost
  let avg_duration := avgDurationOf db c.id
  let min_duration := minDurationOf db c.id
  let max_duration := maxDurationOf db c.id
  let total_duration := totalDurationOf db c.id
  let total_labor_cost := total_duration / 60 * 2 * rate
  let total_cost := total_labor_cost + total_materials_services_cost
  let divisor : ℕ := if 0 < visit_count then visit_count else 1
  let avg_cost_per_visit := total_cost / (divisor : ℚ)
  let avg_labor_cost_per_visit := avg_duration / 60 * 2 * rate
  let projected_yearly_labor_cost := avg_labor_cost_per_visit * 52
  let est_yearly_cost :=
    projected_yearly_labor_cost + configured_materials_cost_yearly + configured_services_yearly
  let proposed_monthly_rate := est_yearly_cost / 12
  let actual_monthly_charge := c.monthlyCharge
  let profit_loss := actual_monthly_charge - proposed_monthly_rate
  { client_id := c.id
    client_name := c.name
    visit_count := visit_count
    visits_this_year := visits_this_year
    total_material_cost := pyRound 2 total_material_cost
    total_service_cost := pyRound 2 total_service_cost
    total_materials_services_cost := pyRound 2 total_materials_services_cost
    configured_materials_cost_yearly := pyRound 2 configured_materials_cost_yearly
    configured_services_cost_yearly := pyRound 2 configured_services_yearly
    projected_yearly_labor_cost := pyRound 2 projected_yearly_labor_cost
    avg_time_per_visit := pyRound 1 avg_duration
    min_time_per_visit := pyRound 1 min_duration
    max_time_per_visit := pyRound 1 max_duration
    total_labor_cost := pyRound 2 total_labor_cost
    avg_cost_per_visit := pyRound 2 avg_cost_per_visit
    est_yearly_cost := pyRound 2 est_yearly_cost
    proposed_monthly_rate := pyRound 2 proposed_monthly_rate
    actual_monthly_charge := pyRound 2 actual_monthly_charge
    monthly_profit_loss := pyRound 2 profit_loss
    is_profitable := decide (0 ≤ profit_loss)
    hourly_rate := pyRound 2 rate }

/-- Insert into a list sorted by the boolean comparator. -/
def insertBy {α : Type} (le : α → α → Bool) (x : α) : List α → List α
  | [] => [x]
  | y :: ys => if le x y then x :: y :: ys else y :: insertBy le x ys

/-- Insertion sort by a boolean comparator, embedding SQL ORDER BY. -/
def sortBy {α : Type} (le : α → α → Bool) : List α → List α
  | [] => []
  | x :: xs => insertBy le x (sortBy le xs)

/-- ORDER BY c.name (ascending). -/
def clientNameLe (a b : Client) : Bool := !(decide (b.name < a.name))

/-- get_all_client_statistics: WHERE c.is_active = (1 if active_only else
0), ORDER BY c.name, then the Python result loop per row. -/
def get_all_client_statistics (db : DB) (activeOnly : Bool) : List ClientStatistics :=
  let rate := get_hourly_rate db.settings
  (sortBy clientNameLe (db.clients.filter (fun c => c.isActive == activeOnly))).map
    (fun c => batchStatsRow db rate c)

/-- get_all_clients: all clients (ORDER BY name), restricted to
is_active = 1 when active_only. -/
def get_all_clients (db : DB) (activeOnly : Bool) : List Client :=
  if activeOnly then sortBy clientNameLe (db.clients.filter (fun c => c.isActive))
  else sortBy clientNameLe db.clients

/-- Result row of get_visits_with_anomalous_durations: v.* plus the
client name and the comparison columns of the SQL query. -/
structure AnomalyRow where
  visit : Visit
  client_name : String
  avg_duration : ℚ
  total_visits : ℕ
  percent_of_avg : ℚ
deriving Repr

/-- Per-visit part of the anomaly query: the JOIN to clients, the join to
the client_stats CTE (HAVING total_visits >= 2), and the WHERE clause
avg_duration > 0 AND duration * 100 / avg_duration >= threshold. -/
def anomalyRowOf (db : DB) (threshold : ℚ) (v : Visit) : Option AnomalyRow :=
  match db.clients.find? (fun c => c.id == v.clientId) with
  | none => none
  | some c =>
    if 2 ≤ visitCountOf db v.clientId ∧ 0 < avgDurationOf db v.clientId ∧
        threshold ≤ v.durationMinutes * 100 / avgDurationOf db v.clientId then
      some { visit := v
             client_name := c.name
             avg_duration := avgDurationOf db v.clientId
             total_visits := visitCountOf db v.clientId
             percent_of_avg := v.durationMinutes * 100 / avgDurationOf db v.clientId }
    else none

/-- ORDER BY percent_of_avg DESC. -/
def percentDescLe (a b : AnomalyRow) : Bool := decide (b.percent_of_avg ≤ a.percent_of_avg)

/-- get_visits_with_anomalous_durations. -/
def get_visits_with_anomalous_durations (db : DB) (threshold : ℚ) : List AnomalyRow :=
  sortBy percentDescLe (db.visits.filterMap (fun v => anomalyRowOf db threshold v))

/-- A client row used by concrete test databases. -/
def cW : Client := { id := 1, name := "acme", monthlyCharge := 0, isActive := true }

/-- Empty-history database: one active client, no visits, no materials,
no settings. -/
def dbEmptyHist : DB :=
  { clients := [cW], visits := [], clientMaterials := [], visitMaterials := [], settings := [] }

/-- Database of spec example P6: one visit of 60 minutes, no materials,
default hourly rate. -/
def dbOneVisit : DB :=
  { clients := [cW]
    visits := [{ id := 1, clientId := 1, durationMinutes := 60, inCurrentYear := true }]
    clientMaterials := [], visitMaterials := [], settings := [] }

/-- The 300-minute visit of spec example P4. -/
def vLong : Visit := { id := 1, clientId := 1, durationMinutes := 300, inCurrentYear := true }

/-- Database of spec example P4: one client with visit durations
300, 60, 60, 60 (average 120). -/
def dbFourVisits : DB :=
  { clients := [cW]
    visits :=
      [vLong,
       { id := 2, clientId := 1, durationMinutes := 60, inCurrentYear := true },
       { id := 3, clientId := 1, durationMinutes := 60, inCurrentYear := true },
       { id := 4, clientId := 1, durationMinutes := 60, inCurrentYear := true }]
    clientMaterials := [], visitMaterials := [], settings := [] }

/-- Database exhibiting the batch division bug: one active client with
zero visits and one enabled configured material of yearly cost 12. -/
def dbZeroVisitConf : DB :=
  { clients := [cW]
    visits := []
    clientMaterials :=
      [{ clientId := 1, isEnabled := true, customCost := none, defaultCost := 12,
         multiplier := 1, materialType := "material" }]
    visitMaterials := [], settings := [] }

/-- An inactive client row. -/
def cInactive : Client := { id := 2, name := "beta", monthlyCharge := 5, isActive := false }

/-- Database with one active and one inactive client. -/
def dbMixedActive : DB :=
  { clients := [cW, cInactive], visits := [], clientMaterials := [], visitMaterials := [],
    settings := [] }

/-- The anomaly result row produced for the long visit of dbFourVisits. -/
def anomalyRowW : AnomalyRow :=
  { visit := vLong
    client_name := "acme"
    avg_duration := avgDurationOf dbFourVisits 1
    total_visits := visitCountOf dbFourVisits 1
    percent_of_avg := vLong.durationMinutes * 100 / avgDurationOf dbFourVisits 1 }

/-- Rounding a rational that is an integer returns it unchanged. -/
theorem rne_intCast (z : ℤ) : rne (z : ℚ) = z := by
  norm_num [rne]

/-- Evaluation rule for rne once the enclosing integer is known. -/
theorem rne_eval (x : ℚ) (f : ℤ) (h1 : (f : ℚ) ≤ x) (h2 : x < f + 1) :
    rne x = if x - f < 1/2 then f
      else if (1:ℚ)/2 < x - f then f + 1
      else if f % 2 = 0 then f else f + 1 := by
  have hf : ⌊x⌋ = f := by
    rw [Int.floor_eq_iff]
    exact ⟨h1, by exact_mod_cast h2⟩
  simp only [rne, hf]

/-- Rounding zero gives zero. -/
theorem pyRound_zero (n : ℕ) : pyRound n 0 = 0 := by
  norm_num [pyRound, rne]

/-- Rounding an integer gives it back. -/
theorem pyRound_intCast (n : ℕ) (z : ℤ) : pyRound n (z : ℚ) = z := by
  have h : ((z : ℚ)) * 10 ^ n = ((z * 10 ^ n : ℤ) : ℚ) := by push_cast; ring
  have hpow : ((10:ℚ)) ^ n ≠ 0 := by positivity
  rw [pyRound, h, rne_intCast]
  push_cast
  field_simp

/-- pyRound always produces a value with at most the requested number of
decimal digits. -/
theorem rounded_pyRound (d : ℕ) (q : ℚ) : Rounded d (pyRound d q) :=
  ⟨rne (q * 10 ^ d), rfl⟩

/-- singleStats written as an explicit record of its field expressions. -/
theorem singleStats_def (db : DB) (rate : ℚ) (client : Client) (cid : ℕ) :
    singleStats db rate client cid =
      { client_id := cid
        client_name := client.name
        visit_count := visitCountOf db cid
        visits_this_year := visitsThisYearOf db cid
        total_material_cost :=
          pyRound 2 (configuredCostOf db cid "material" + visitMaterialCostOf db cid "material")
        total_service_cost :=
          pyRound 2 (configuredCostOf db cid "service" + visitMaterialCostOf db cid "service")
        total_materials_services_cost :=
          pyRound 2 (configuredCostOf db cid "material" + visitMaterialCostOf db cid "material" +
            (configuredCostOf db cid "service" + visitMaterialCostOf db cid "service"))
        configured_materials_cost_yearly := pyRound 2 (configuredCostOf db cid "material")
        configured_services_cost_yearly := pyRound 2 (configuredCostOf db cid "service")
        projected_yearly_labor_cost := pyRound 2 (avgDurationOf db cid / 60 * 2 * rate * 52)
        avg_time_per_visit := pyRound 1 (avgDurationOf db cid)
        min_time_per_visit := pyRound 1 (minDurationOf db cid)
        max_time_per_visit := pyRound 1 (maxDurationOf db cid)
        total_labor_cost := pyRound 2 (totalDurationOf db cid / 60 * 2 * rate)
        avg_cost_per_visit :=
          pyRound 2 (if 0 < visitCountOf db cid then
            (totalDurationOf db cid / 60 * 2 * rate +
              (configuredCostOf db cid "material" + visitMaterialCostOf db cid "material" +
                (configuredCostOf db cid "service" + visitMaterialCostOf db cid "service"))) /
              (visitCountOf db cid : ℚ)
          else 0)
        est_yearly_cost :=
          pyRound 2 (avgDurationOf db cid / 60 * 2 * rate * 52 +
            configuredCostOf db cid "material" + configuredCostOf db cid "service")
        proposed_monthly_rate :=
          pyRound 2 ((avgDurationOf db cid / 60 * 2 * rate * 52 +
            configuredCostOf db cid "material" + configuredCostOf db cid "service") / 12)
        actual_monthly_charge := pyRound 2 client.monthlyCharge
        monthly_profit_loss :=
          pyRound 2 (client.monthlyCharge -
            (avgDurationOf db cid / 60 * 2 * rate * 52 +
              configuredCostOf db cid "material" + configuredCostOf db cid "service") / 12)
        is_profitable :=
          decide (0 ≤ client.monthlyCharge -
            (avgDurationOf db cid / 60 * 2 * rate * 52 +
              configuredCostOf db cid "material" + configuredCostOf db cid "service") / 12)
        hourly_rate := pyRound 2 rate } := rfl

/-- batchStatsRow written as an explicit record of its field expressions. -/
theorem batchStatsRow_def (db : DB) (rate : ℚ) (c : Client) :
    batchStatsRow db rate c =
      { client_id := c.id
        client_name := c.name
        visit_count := visitCountOf db c.id
        visits_this_year := visitsThisYearOf db c.id
        total_material_cost :=
          pyRound 2 (configuredCostOf db c.id "material" + visitMaterialCostOf db c.id "material")
        total_service_cost :=
          pyRound 2 (configuredCostOf db c.id "service" + visitMaterialCostOf db c.id "service")
        total_materials_services_cost :=
          pyRound 2 (configuredCostOf db c.id "material" + visitMaterialCostOf db c.id "material" +
            (configuredCostOf db c.id "service" + visitMaterialCostOf db c.id "service"))
        configured_materials_cost_yearly := pyRound 2 (configuredCostOf db c.id "material")
        configured_services_cost_yearly := pyRound 2 (configuredCostOf db c.id "service")
        projected_yearly_labor_cost := pyRound 2 (avgDurationOf db c.id / 60 * 2 * rate * 52)
        avg_time_per_visit := pyRound 1 (avgDurationOf db c.id)
        min_time_per_visit := pyRound 1 (minDurationOf db c.id)
        max_time_per_visit := pyRound 1 (maxDurationOf db c.id)
        total_labor_cost := pyRound 2 (totalDurationOf db c.id / 60 * 2 * rate)
        avg_cost_per_visit :=
          pyRound 2 ((totalDurationOf db c.id / 60 * 2 * rate +
            (configuredCostOf db c.id "material" + visitMaterialCostOf db c.id "material" +
              (configuredCostOf db c.id "service" + visitMaterialCostOf db c.id "service"))) /
            ((if 0 < visitCountOf db c.id then visitCountOf db c.id else 1 : ℕ) : ℚ))
        est_yearly_cost :=
          pyRound 2 (avgDurationOf db c.id / 60 * 2 * rate * 52 +
            configuredCostOf db c.id "material" + configuredCostOf db c.id "service")
        proposed_monthly_rate :=
          pyRound 2 ((avgDurationOf db c.id / 60 * 2 * rate * 52 +
            configuredCostOf db c.id "material" + configuredCostOf db c.id "service") / 12)
        actual_monthly_charge := pyRound 2 c.monthlyCharge
        monthly_profit_loss :=
          pyRound 2 (c.monthlyCharge -
            (avgDurationOf db c.id / 60 * 2 * rate * 52 +
              configuredCostOf db c.id "material" + configuredCostOf db c.id "service") / 12)
        is_profitable :=
          decide (0 ≤ c.monthlyCharge -
            (avgDurationOf db c.id / 60 * 2 * rate * 52 +
              configuredCostOf db c.id "material" + configuredCostOf db c.id "service") / 12)
        hourly_rate := pyRound 2 rate } := rfl

/-- Membership in an insertBy result. -/
theorem mem_insertBy {α : Type} (le : α → α → Bool) (x y : α) (l : List α) :
    y ∈ insertBy le x l ↔ y = x ∨ y ∈ l := by
  induction l with
  | nil => simp [insertBy]
  | cons z zs ih =>
    by_cases h : le x z = true
    · simp [insertBy, h]
    · simp only [insertBy, if_neg h, List.mem_cons, ih]
      tauto

/-- sortBy permutes membership. -/
theorem mem_sortBy {α : Type} (le : α → α → Bool) (y : α) (l : List α) :
    y ∈ sortBy le l ↔ y ∈ l := by
  induction l with
  | nil => simp [sortBy]
  | cons z zs ih => simp [sortBy, mem_insertBy, ih]

/-- Inserting into a list sorted for a total, transitive boolean
comparator keeps it sorted. -/
theorem pairwise_insertBy {α : Type} (le : α → α → Bool)
    (htot : ∀ a b, le a b = false → le b a = true)
    (htrans : ∀ a b c, le a b = true → le b c = true → le a c = true)
    (x : α) (l : List α) (hl : l.Pairwise (fun a b => le a b = true)) :
    (insertBy le x l).Pairwise (fun a b => le a b = true) := by
  induction l with
  | nil => simp [insertBy]
  | cons z zs ih =>
    rcases List.pairwise_cons.mp hl with ⟨hz, hzs⟩
    by_cases h : le x z = true
    · rw [insertBy, if_pos h, List.pairwise_cons]
      refine ⟨?_, hl⟩
      intro w hw
      rcases List.mem_cons.mp hw with hwz | hwzs
      · exact hwz ▸ h
      · exact htrans x z w h (hz w hwzs)
    · rw [insertBy, if_neg h, List.pairwise_cons]
      refine ⟨?_, ih hzs⟩
      intro w hw
      rcases (mem_insertBy le x w zs).mp hw with hwx | hwzs
      · exact hwx ▸ htot x z (Bool.not_eq_true _ ▸ h)
      · exact hz w hwzs

/-- Insertion sort by a total, transitive boolean comparator sorts. -/
theorem pairwise_sortBy {α : Type} (le : α → α → Bool)
    (htot : ∀ a b, le a b = false → le b a = true)
    (htrans : ∀ a b c, le a b = true → le b c = true → le a c = true)
    (l : List α) : (sortBy le l).Pairwise (fun a b => le a b = true) := by
  induction l with
  | nil => simp [sortBy]
  | cons z zs ih => exact pairwise_insertBy le htot htrans z (sortBy le zs) ih

/-- The default literal of get_hourly_rate parses to 25. -/
theorem parseDecimal_default : parseDecimal "25.00" = 25 := by
  have h : splitAtDot "25.00".toList = (['2', '5'], ['0', '0']) := rfl
  have h1 : digitsToNat ['2', '5'] = 25 := rfl
  have h2 : digitsToNat ['0', '0'] = 0 := rfl
  rw [parseDecimal, h]
  simp only [h1, h2]
  norm_num

/-- get_client_statistics unfolds to singleStats when the client row is
found. -/
theorem get_client_statistics_found (db : DB) (cid : ℕ) (c : Client)
    (hc : db.clients.find? (fun x => x.id == cid) = some c) :
    get_client_statistics db cid = some (singleStats db (get_hourly_rate db.settings) c cid) := by
  simp only [get_client_statistics, hc]

/-- C8: when the settings store has no value for the key hourly_rate, the
rate used by the cost projector is exactly 25.00; in general get_setting
returns the stored string when the key is present and the given default
otherwise. -/
theorem claim_C8_default_hourly_rate (settings : List (String × String)) (key dflt : String) :
    ((∀ p ∈ settings, p.fst ≠ "hourly_rate") → get_hourly_rate settings = 25) ∧
    ((∀ p ∈ settings, p.fst ≠ key) → get_setting settings key dflt = dflt) ∧
    (∀ v : String, (key, v) ∈ settings →
      ∃ w : String, (key, w) ∈ settings ∧ get_setting settings key dflt = w) := by
  have habs : ∀ k d : String, (∀ p ∈ settings, p.fst ≠ k) → get_setting settings k d = d := by
    intro k d h
    have hnone : settings.find? (fun p => p.fst == k) = none :=
      List.find?_eq_none.mpr (fun p hp => by simpa using h p hp)
    rw [get_setting, hnone]
  refine ⟨?_, habs key dflt, ?_⟩
  · intro h
    rw [get_hourly_rate, habs "hourly_rate" "25.00" h]
    exact parseDecimal_default
  · intro v hv
    have hsome : (settings.find? (fun p => p.fst == key)).isSome = true :=
      List.find?_isSome.mpr ⟨(key, v), hv, by simp⟩
    obtain ⟨q, hq⟩ := Option.isSome_iff_exists.mp hsome
    have hqmem : q ∈ settings := List.mem_of_find?_eq_some hq
    have hqkey : q.fst = key := by simpa using List.find?_some hq
    refine ⟨q.snd, ?_, ?_⟩
    · rw [← hqkey]
      exact hqmem
    · rw [get_setting, hq]

/-- Witness for C8 at concrete stores. -/
theorem claim_C8_witness :
    get_hourly_rate [] = 25 ∧ get_setting [("hourly_rate", "30")] "tax" "d" = "d" :=
  ⟨(claim_C8_default_hourly_rate [] "tax" "d").1 (by simp),
   (claim_C8_default_hourly_rate [("hourly_rate", "30")] "tax" "d").2.1 (by simp)⟩

/-- C2: a client that exists but has zero visits gets a record (not an
error) with zero visit count, zero time statistics, zero labor costs, a
guarded avg_cost_per_visit of 0, and an estimated yearly cost built from
the configured materials and services costs only. -/
theorem claim_C2_zero_visit_safety (db : DB) (cid : ℕ) (c : Client)
    (hc : db.clients.find? (fun x => x.id == cid) = some c)
    (hv : visitsOf db cid = []) :
    ∃ s, get_client_statistics db cid = some s ∧
      s.visit_count = 0 ∧
      s.avg_time_per_visit = 0 ∧ s.min_time_per_visit = 0 ∧ s.max_time_per_visit = 0 ∧
      s.total_labor_cost = 0 ∧ s.avg_cost_per_visit = 0 ∧
      s.projected_yearly_labor_cost = 0 ∧
      s.est_yearly_cost =
        pyRound 2 (configuredCostOf db cid "material" + configuredCostOf db cid "service") := by
  have hcount : visitCountOf db cid = 0 := by simp [visitCountOf, hv]
  have htot : totalDurationOf db cid = 0 := by simp [totalDurationOf, hv]
  have havg : avgDurationOf db cid = 0 := by simp [avgDurationOf, hcount]
  have hmin : minDurationOf db cid = 0 := by simp [minDurationOf, hv, sqlMin]
  have hmax : maxDurationOf db cid = 0 := by simp [maxDurationOf, hv, sqlMax]
  refine ⟨_, get_client_statistics_found db cid c hc, ?_, ?_, ?_, ?_, ?_, ?_, ?_, ?_⟩
  · simp [singleStats_def, hcount]
  · simp [singleStats_def, havg, pyRound_zero]
  · simp [singleStats_def, hmin, pyRound_zero]
  · simp [singleStats_def, hmax, pyRound_zero]
  · simp [singleStats_def, htot, pyRound_zero]
  · simp [singleStats_def, hcount, pyRound_zero]
  · simp [singleStats_def, havg, pyRound_zero]
  · simp [singleStats_def, havg]

/-- Witness for C2 at a concrete zero-visit client. -/
theorem claim_C2_witness :
    ∃ s, get_client_statistics dbEmptyHist 1 = some s ∧
      s.visit_count = 0 ∧
      s.avg_time_per_visit = 0 ∧ s.min_time_per_visit = 0 ∧ s.max_time_per_visit = 0 ∧
      s.total_labor_cost = 0 ∧ s.avg_cost_per_visit = 0 ∧
      s.projected_yearly_labor_cost = 0 ∧ s.est_yearly_cost = 0 := by
  obtain ⟨s, hs, h1, h2, h3, h4, h5, h6, h7, h8⟩ :=
    claim_C2_zero_visit_safety dbEmptyHist 1 cW rfl rfl
  refine ⟨s, hs, h1, h2, h3, h4, h5, h6, h7, ?_⟩
  rw [h8, show configuredCostOf dbEmptyHist 1 "material" = 0 from rfl,
    show configuredCostOf dbEmptyHist 1 "service" = 0 from rfl]
  simpa using pyRound_zero 2

/-- Evaluation of the P6 monthly rate rounding: 2600/12 rounds to 216.67. -/
theorem pyRound_p6_rate : pyRound 2 ((2600 : ℚ) / 12) = 21667 / 100 := by
  have hx : ((2600 : ℚ) / 12) * 10 ^ 2 = 65000 / 3 := by norm_num
  rw [pyRound, hx, rne_eval ((65000 : ℚ) / 3) 21666 (by norm_num) (by norm_num)]
  norm_num

/-- C4: for a client with at least one visit, the unrounded cost
projections follow the spec formulas (labor from total duration at two
crew members, a 52-visit yearly extrapolation of the average visit,
configured recurring costs only in the yearly estimate, and a twelfth of
the yearly estimate as proposed monthly rate), with rounding applied only
to the output record. -/
theorem claim_C4_cost_projection_formulas (db : DB) (cid : ℕ) (c : Client)
    (hc : db.clients.find? (fun x => x.id == cid) = some c)
    (hn : 0 < visitCountOf db cid) :
    ∃ s, get_client_statistics db cid = some s ∧
      s.total_labor_cost =
        pyRound 2 (totalDurationOf db cid / 60 * 2 * get_hourly_rate db.settings) ∧
      s.projected_yearly_labor_cost =
        pyRound 2 (avgDurationOf db cid / 60 * 2 * get_hourly_rate db.settings * 52) ∧
      s.est_yearly_cost =
        pyRound 2 (avgDurationOf db cid / 60 * 2 * get_hourly_rate db.settings * 52 +
          configuredCostOf db cid "material" + configuredCostOf db cid "service") ∧
      s.proposed_monthly_rate =
        pyRound 2 ((avgDurationOf db cid / 60 * 2 * get_hourly_rate db.settings * 52 +
          configuredCostOf db cid "material" + configuredCostOf db cid "service") / 12) ∧
      avgDurationOf db cid = totalDurationOf db cid / (visitCountOf db cid : ℚ) := by
  refine ⟨_, get_client_statistics_found db cid c hc, ?_, ?_, ?_, ?_, ?_⟩
  · simp [singleStats_def]
  · simp [singleStats_def]
  · simp [singleStats_def]
  · simp [singleStats_def]
  · rw [avgDurationOf, if_neg (Nat.pos_iff_ne_zero.mp hn)]

/-- Witness for C4 at the database of spec example P6: one 60-minute
visit at the default hourly rate gives 50 of labor per visit, 2600 of
projected yearly cost and a proposed monthly rate of 216.67. -/
theorem claim_C4_witness :
    ∃ s, get_client_statistics dbOneVisit 1 = some s ∧
      s.total_labor_cost = 50 ∧ s.projected_yearly_labor_cost = 2600 ∧
      s.est_yearly_cost = 2600 ∧ s.proposed_monthly_rate = 21667 / 100 := by
  have hcount : visitCountOf dbOneVisit 1 = 1 := rfl
  have hrate : get_hourly_rate dbOneVisit.settings = 25 := parseDecimal_default
  have htot : totalDurationOf dbOneVisit 1 = 60 := by
    simp [totalDurationOf, visitsOf, dbOneVisit]
  have havg : avgDurationOf dbOneVisit 1 = 60 := by
    rw [avgDurationOf, if_neg (by rw [hcount]; exact one_ne_zero), htot, hcount]
    norm_num
  have hconfM : configuredCostOf dbOneVisit 1 "material" = 0 := rfl
  have hconfS : configuredCostOf dbOneVisit 1 "service" = 0 := rfl
  obtain ⟨s, hs, h1, h2, h3, h4, h5⟩ :=
    claim_C4_cost_projection_formulas dbOneVisit 1 cW rfl (by rw [hcount]; exact Nat.one_pos)
  refine ⟨s, hs, ?_, ?_, ?_, ?_⟩
  · rw [h1, htot, hrate, show (60 : ℚ) / 60 * 2 * 25 = ((50 : ℤ) : ℚ) from by norm_num,
      pyRound_intCast]
    norm_num
  · rw [h2, havg, hrate, show (60 : ℚ) / 60 * 2 * 25 * 52 = ((2600 : ℤ) : ℚ) from by norm_num,
      pyRound_intCast]
    norm_num
  · rw [h3, havg, hrate, hconfM, hconfS,
      show (60 : ℚ) / 60 * 2 * 25 * 52 + 0 + 0 = ((2600 : ℤ) : ℚ) from by norm_num,
      pyRound_intCast]
    norm_num
  · rw [h4, havg, hrate, hconfM, hconfS,
      show ((60 : ℚ) / 60 * 2 * 25 * 52 + 0 + 0) / 12 = (2600 : ℚ) / 12 from by norm_num,
      pyRound_p6_rate]

/-- C7: the profitability verdict of a statistics record compares the
client's monthly charge with the unrounded proposed monthly rate:
monthly_profit_loss is the rounded difference, is_profitable holds
exactly when the difference is nonnegative, and a client whose charge
equals the proposed rate is break-even and counted profitable. -/
theorem claim_C7_profitability (db : DB) (cid : ℕ) (c : Client)
    (hc : db.clients.find? (fun x => x.id == cid) = some c) :
    ∃ s, get_client_statistics db cid = some s ∧
      s.monthly_profit_loss =
        pyRound 2 (c.monthlyCharge -
          (avgDurationOf db cid / 60 * 2 * get_hourly_rate db.settings * 52 +
            configuredCostOf db cid "material" + configuredCostOf db cid "service") / 12) ∧
      (s.is_profitable = true ↔
        0 ≤ c.monthlyCharge -
          (avgDurationOf db cid / 60 * 2 * get_hourly_rate db.settings * 52 +
            configuredCostOf db cid "material" + configuredCostOf db cid "service") / 12) ∧
      (c.monthlyCharge =
          (avgDurationOf db cid / 60 * 2 * get_hourly_rate db.settings * 52 +
            configuredCostOf db cid "material" + configuredCostOf db cid "service") / 12 →
        s.monthly_profit_loss = 0 ∧ s.is_profitable = true) := by
  refine ⟨_, get_client_statistics_found db cid c hc, ?_, ?_, ?_⟩
  · simp [singleStats_def]
  · simp [singleStats_def]
  · intro h
    constructor
    · simp only [singleStats_def]
      rw [← h, sub_self]
      exact pyRound_zero 2
    · simp only [singleStats_def]
      rw [← h, sub_self]
      simp

/-- Witness for C7 at a concrete break-even client (charge 0, projected
rate 0). -/
theorem claim_C7_witness :
    ∃ s, get_client_statistics dbEmptyHist 1 = some s ∧
      s.monthly_profit_loss = 0 ∧ s.is_profitable = true := by
  obtain ⟨s, hs, _, _, hbe⟩ := claim_C7_profitability dbEmptyHist 1 cW rfl
  refine ⟨s, hs, hbe ?_⟩
  rw [show avgDurationOf dbEmptyHist 1 = 0 from rfl,
    show configuredCostOf dbEmptyHist 1 "material" = 0 from rfl,
    show configuredCostOf dbEmptyHist 1 "service" = 0 from rfl,
    show cW.monthlyCharge = 0 from rfl]
  norm_num

/-- C5 counterexample: the statistics record produced by the code has no
total_duration key at all, so no client's record can contain one. -/
theorem claim_C5_counterexample : ("total_duration" ∈ clientStatisticsKeys) = False := by
  simp [clientStatisticsKeys]

/-- C5 amended: the record carries no total_duration field; the internal
total duration equals the sum of duration_minutes over the client's
visits (0 when there are none) and reaches the record only through
total_labor_cost. -/
theorem claim_C5_total_duration_amended (db : DB) (cid : ℕ) (c : Client)
    (hc : db.clients.find? (fun x => x.id == cid) = some c) :
    ∃ s, get_client_statistics db cid = some s ∧
      totalDurationOf db cid =
        ((db.visits.filter (fun v => v.clientId == cid)).map Visit.durationMinutes).sum ∧
      s.total_labor_cost =
        pyRound 2 (totalDurationOf db cid / 60 * 2 * get_hourly_rate db.settings) ∧
      ¬ "total_duration" ∈ clientStatisticsKeys := by
  refine ⟨_, get_client_statistics_found db cid c hc, rfl, ?_, ?_⟩
  · simp [singleStats_def]
  · simp [clientStatisticsKeys]

/-- Witness for C5 at a concrete client with one visit. -/
theorem claim_C5_witness :
    ∃ s, get_client_statistics dbOneVisit 1 = some s ∧
      totalDurationOf dbOneVisit 1 =
        ((dbOneVisit.visits.filter (fun v => v.clientId == 1)).map Visit.durationMinutes).sum ∧
      s.total_labor_cost =
        pyRound 2 (totalDurationOf dbOneVisit 1 / 60 * 2 * get_hourly_rate dbOneVisit.settings) ∧
      ¬ "total_duration" ∈ clientStatisticsKeys :=
  claim_C5_total_duration_amended dbOneVisit 1 cW rfl

/-- C6: the batch statistics with active_only = false cover exactly the
clients whose is_active flag is cleared, while get_all_clients with
active_only = false returns every client. -/
theorem claim_C6_inactive_selection (db : DB) (cid : ℕ) :
    ((∃ s ∈ get_all_client_statistics db false, s.client_id = cid) ↔
      ∃ c ∈ db.clients, c.id = cid ∧ c.isActive = false) ∧
    (∀ c : Client, c ∈ get_all_clients db false ↔ c ∈ db.clients) := by
  have hmem : ∀ s, s ∈ get_all_client_statistics db false ↔
      ∃ c, (c ∈ db.clients ∧ c.isActive = false) ∧
        batchStatsRow db (get_hourly_rate db.settings) c = s := by
    intro s
    simp only [get_all_client_statistics, List.mem_map, mem_sortBy, List.mem_filter,
      beq_iff_eq]
  constructor
  · constructor
    · rintro ⟨s, hs, hsid⟩
      obtain ⟨c, ⟨hcmem, hcact⟩, hcs⟩ := (hmem s).mp hs
      refine ⟨c, hcmem, ?_, hcact⟩
      rw [← hsid, ← hcs]
      rfl
    · rintro ⟨c, hcmem, hcid, hcact⟩
      refine ⟨batchStatsRow db (get_hourly_rate db.settings) c,
        (hmem _).mpr ⟨c, ⟨hcmem, hcact⟩, rfl⟩, hcid⟩
  · intro c
    simp only [get_all_clients, Bool.false_eq_true, if_false, mem_sortBy]

/-- Witness for C6: in a database with one active and one inactive
client, the active_only = false batch lists exactly the inactive one and
get_all_clients with active_only = false keeps the active one too. -/
theorem claim_C6_witness :
    (∃ s ∈ get_all_client_statistics dbMixedActive false, s.client_id = 2) ∧
    (¬ ∃ s ∈ get_all_client_statistics dbMixedActive false, s.client_id = 1) ∧
    cW ∈ get_all_clients dbMixedActive false := by
  refine ⟨?_, ?_, ?_⟩
  · exact (claim_C6_inactive_selection dbMixedActive 2).1.mpr
      ⟨cInactive, by simp [dbMixedActive], rfl, rfl⟩
  · intro h
    obtain ⟨c, hcmem, hcid, hcact⟩ := (claim_C6_inactive_selection dbMixedActive 1).1.mp h
    have : c = cW ∨ c = cInactive := by simpa [dbMixedActive] using hcmem
    rcases this with hcw | hci
    · rw [hcw, show cW.isActive = true from rfl] at hcact
      exact absurd hcact (by simp)
    · rw [hci, show cInactive.id = 2 from rfl] at hcid
      omega
  · exact ((claim_C6_inactive_selection dbMixedActive 1).2 cW).mpr (by simp [dbMixedActive])

/-- C10: every monetary field of a produced statistics record, single or
batch, carries at most two decimal digits and every duration field at
most one (rounding happens exactly at record production). -/
theorem claim_C10_rounding (db : DB) (cid : ℕ) (b : Bool) :
    (∀ s, get_client_statistics db cid = some s →
      Rounded 2 s.total_material_cost ∧ Rounded 2 s.total_service_cost ∧
      Rounded 2 s.total_materials_services_cost ∧
      Rounded 2 s.configured_materials_cost_yearly ∧
      Rounded 2 s.configured_services_cost_yearly ∧
      Rounded 2 s.projected_yearly_labor_cost ∧ Rounded 2 s.total_labor_cost ∧
      Rounded 2 s.avg_cost_per_visit ∧ Rounded 2 s.est_yearly_cost ∧
      Rounded 2 s.proposed_monthly_rate ∧ Rounded 2 s.actual_monthly_charge ∧
      Rounded 2 s.monthly_profit_loss ∧ Rounded 2 s.hourly_rate ∧
      Rounded 1 s.avg_time_per_visit ∧ Rounded 1 s.min_time_per_visit ∧
      Rounded 1 s.max_time_per_visit) ∧
    (∀ s, s ∈ get_all_client_statistics db b →
      Rounded 2 s.total_material_cost ∧ Rounded 2 s.total_service_cost ∧
      Rounded 2 s.total_materials_services_cost ∧
      Rounded 2 s.configured_materials_cost_yearly ∧
      Rounded 2 s.configured_services_cost_yearly ∧
      Rounded 2 s.projected_yearly_labor_cost ∧ Rounded 2 s.total_labor_cost ∧
      Rounded 2 s.avg_cost_per_visit ∧ Rounded 2 s.est_yearly_cost ∧
      Rounded 2 s.proposed_monthly_rate ∧ Rounded 2 s.actual_monthly_charge ∧
      Rounded 2 s.monthly_profit_loss ∧ Rounded 2 s.hourly_rate ∧
      Rounded 1 s.avg_time_per_visit ∧ Rounded 1 s.min_time_per_visit ∧
      Rounded 1 s.max_time_per_visit) := by
  constructor
  · intro s h
    cases hfind : db.clients.find? (fun x => x.id == cid) with
    | none => rw [get_client_statistics, hfind] at h; cases h
    | some c =>
      rw [get_client_statistics_found db cid c hfind] at h
      cases h
      exact ⟨rounded_pyRound 2 _, rounded_pyRound 2 _, rounded_pyRound 2 _,
        rounded_pyRound 2 _, rounded_pyRound 2 _, rounded_pyRound 2 _, rounded_pyRound 2 _,
        rounded_pyRound 2 _, rounded_pyRound 2 _, rounded_pyRound 2 _, rounded_pyRound 2 _,
        rounded_pyRound 2 _, rounded_pyRound 2 _, rounded_pyRound 1 _, rounded_pyRound 1 _,
        rounded_pyRound 1 _⟩
  · intro s h
    simp only [get_all_client_statistics, List.mem_map] at h
    obtain ⟨c, _, hcs⟩ := h
    cases hcs
    exact ⟨rounded_pyRound 2 _, rounded_pyRound 2 _, rounded_pyRound 2 _,
      rounded_pyRound 2 _, rounded_pyRound 2 _, rounded_pyRound 2 _, rounded_pyRound 2 _,
      rounded_pyRound 2 _, rounded_pyRound 2 _, rounded_pyRound 2 _, rounded_pyRound 2 _,
      rounded_pyRound 2 _, rounded_pyRound 2 _, rounded_pyRound 1 _, rounded_pyRound 1 _,
      rounded_pyRound 1 _⟩

/-- Witness for C10 at a concrete record. -/
theorem claim_C10_witness :
    Rounded 2 ((singleStats dbEmptyHist (get_hourly_rate dbEmptyHist.settings) cW 1).total_labor_cost) ∧
    Rounded 1 ((singleStats dbEmptyHist (get_hourly_rate dbEmptyHist.settings) cW 1).avg_time_per_visit) := by
  obtain ⟨h1, h2, h3, h4, h5, h6, h7, h8, h9, h10, h11, h12, h13, h14, h15, h16⟩ :=
    (claim_C10_rounding dbEmptyHist 1 true).1
      (singleStats dbEmptyHist (get_hourly_rate dbEmptyHist.settings) cW 1) rfl
  exact ⟨h7, h14⟩

/-- C1 divergence, evaluated: for a zero-visit client with a configured
yearly material cost of 12, get_client_statistics reports
avg_cost_per_visit = 0 (guarded division) while get_all_client_statistics
reports 12 for the same client, because the batch path divides by a
substituted count of 1 instead of guarding to 0. -/
theorem claim_C1_batch_divergence :
    (get_client_statistics dbZeroVisitConf 1).map ClientStatistics.avg_cost_per_visit =
      some 0 ∧
    (get_all_client_statistics dbZeroVisitConf true).map ClientStatistics.avg_cost_per_visit =
      [12] := by
  constructor
  · rw [show get_client_statistics dbZeroVisitConf 1 =
        some (singleStats dbZeroVisitConf (get_hourly_rate dbZeroVisitConf.settings) cW 1)
        from rfl, Option.map_some']
    simp only [singleStats_def]
    rw [show visitCountOf dbZeroVisitConf 1 = 0 from rfl]
    simp [pyRound_zero]
  · rw [show get_all_client_statistics dbZeroVisitConf true =
        [batchStatsRow dbZeroVisitConf (get_hourly_rate dbZeroVisitConf.settings) cW] from rfl,
      List.map_cons, List.map_nil]
    simp only [batchStatsRow_def]
    have hconf : configuredCostOf dbZeroVisitConf 1 "material" = 12 := by
      norm_num [configuredCostOf, dbZeroVisitConf, ClientMaterialRow.effectiveCost,
        List.filter]
    rw [show cW.id = 1 from rfl, hconf,
      show totalDurationOf dbZeroVisitConf 1 = 0 from rfl,
      show visitMaterialCostOf dbZeroVisitConf 1 "material" = 0 from rfl,
      show configuredCostOf dbZeroVisitConf 1 "service" = 0 from rfl,
      show visitMaterialCostOf dbZeroVisitConf 1 "service" = 0 from rfl,
      show visitCountOf dbZeroVisitConf 1 = 0 from rfl]
    rw [show ((0 : ℚ) / 60 * 2 * get_hourly_rate dbZeroVisitConf.settings +
        (12 + 0 + (0 + 0))) / ((if 0 < 0 then 0 else 1 : ℕ) : ℚ) = ((12 : ℤ) : ℚ)
        from by norm_num, pyRound_intCast]
    norm_num

/-- The P4 example group has average duration 120. -/
theorem avg_dbFourVisits : avgDurationOf dbFourVisits 1 = 120 := by
  have hcount : visitCountOf dbFourVisits 1 = 4 := rfl
  have htot : totalDurationOf dbFourVisits 1 = 480 := by
    simp only [totalDurationOf, visitsOf, dbFourVisits]
    norm_num [vLong]
  rw [avgDurationOf, if_neg (by rw [hcount]; norm_num), htot, hcount]
  norm_num

/-- C3: a visit of the database is an anomaly result exactly when its
client group has at least two visits, a strictly positive mean duration,
and the visit's percent of the group average reaches the threshold; in
particular a visit of a client with fewer than two visits never appears. -/
theorem claim_C3_anomaly_membership (db : DB) (t : ℚ) (v : Visit)
    (hv : v ∈ db.visits) (hwf : ∃ c ∈ db.clients, c.id = v.clientId) :
    (∃ r ∈ get_visits_with_anomalous_durations db t, r.visit = v) ↔
      (2 ≤ visitCountOf db v.clientId ∧ 0 < avgDurationOf db v.clientId ∧
        t ≤ v.durationMinutes / avgDurationOf db v.clientId * 100) := by
  have hform : v.durationMinutes / avgDurationOf db v.clientId * 100 =
      v.durationMinutes * 100 / avgDurationOf db v.clientId := by ring
  constructor
  · rintro ⟨r, hr, hrv⟩
    rw [get_visits_with_anomalous_durations, mem_sortBy, List.mem_filterMap] at hr
    obtain ⟨w, hwmem, hrow⟩ := hr
    rw [anomalyRowOf] at hrow
    split at hrow
    · exact absurd hrow (by simp)
    · split at hrow
      · rename_i hcond
        cases hrow
        simp only at hrv
        subst hrv
        exact ⟨hcond.1, hcond.2.1, by rw [hform]; exact hcond.2.2⟩
      · exact absurd hrow (by simp)
  · rintro ⟨h2, h0, ht⟩
    obtain ⟨c, hcmem, hcid⟩ := hwf
    have hsome : (db.clients.find? (fun x => x.id == v.clientId)).isSome = true :=
      List.find?_isSome.mpr ⟨c, hcmem, by simp [hcid]⟩
    obtain ⟨c', hc'⟩ := Option.isSome_iff_exists.mp hsome
    have hpre : anomalyRowOf db t v =
        if 2 ≤ visitCountOf db v.clientId ∧ 0 < avgDurationOf db v.clientId ∧
            t ≤ v.durationMinutes * 100 / avgDurationOf db v.clientId then
          some { visit := v
                 client_name := c'.name
                 avg_duration := avgDurationOf db v.clientId
                 total_visits := visitCountOf db v.clientId
                 percent_of_avg := v.durationMinutes * 100 / avgDurationOf db v.clientId }
        else none := by
      rw [anomalyRowOf, hc']
    refine ⟨{ visit := v
              client_name := c'.name
              avg_duration := avgDurationOf db v.clientId
              total_visits := visitCountOf db v.clientId
              percent_of_avg := v.durationMinutes * 100 / avgDurationOf db v.clientId },
      ?_, rfl⟩
    rw [get_visits_with_anomalous_durations, mem_sortBy, List.mem_filterMap]
    exact ⟨v, hv, by rw [hpre, if_pos ⟨h2, h0, hform ▸ ht⟩]⟩

/-- Witness for C3: in the P4 example database with threshold 200, the
300-minute visit is reported as anomalous. -/
theorem claim_C3_witness :
    ∃ r ∈ get_visits_with_anomalous_durations dbFourVisits 200, r.visit = vLong := by
  refine (claim_C3_anomaly_membership dbFourVisits 200 vLong ?_ ?_).mpr ?_
  · simp [dbFourVisits]
  · exact ⟨cW, by simp [dbFourVisits], rfl⟩
  · refine ⟨?_, ?_, ?_⟩
    · rw [show visitCountOf dbFourVisits vLong.clientId = 4 from rfl]
      norm_num
    · rw [show vLong.clientId = 1 from rfl, avg_dbFourVisits]
      norm_num
    · rw [show vLong.clientId = 1 from rfl, avg_dbFourVisits,
        show vLong.durationMinutes = 300 from rfl]
      norm_num

/-- C9: the anomaly result list is sorted by percent_of_avg in descending
order, and every row carries the group average, the group size (at least
2), and a percent_of_avg equal to its duration times 100 over that
average. -/
theorem claim_C9_anomaly_order_and_fields (db : DB) (t : ℚ) :
    (get_visits_with_anomalous_durations db t).Pairwise
      (fun a b => b.percent_of_avg ≤ a.percent_of_avg) ∧
    ∀ r ∈ get_visits_with_anomalous_durations db t,
      r.avg_duration = avgDurationOf db r.visit.clientId ∧
      r.total_visits = visitCountOf db r.visit.clientId ∧
      2 ≤ r.total_visits ∧
      r.percent_of_avg = r.visit.durationMinutes * 100 / r.avg_duration := by
  constructor
  · have htot : ∀ a b : AnomalyRow, percentDescLe a b = false → percentDescLe b a = true := by
      intro a b hab
      have : ¬ b.percent_of_avg ≤ a.percent_of_avg := by
        simpa [percentDescLe] using hab
      simp [percentDescLe, le_of_lt (lt_of_not_le this)]
    have htrans : ∀ a b c : AnomalyRow,
        percentDescLe a b = true → percentDescLe b c = true → percentDescLe a c = true := by
      intro a b c hab hbc
      simp only [percentDescLe, decide_eq_true_eq] at hab hbc ⊢
      exact le_trans hbc hab
    have hp := pairwise_sortBy percentDescLe htot htrans
      (db.visits.filterMap (fun v => anomalyRowOf db t v))
    rw [get_visits_with_anomalous_durations]
    exact hp.imp (fun h => by simpa [percentDescLe, decide_eq_true_eq] using h)
  · intro r hr
    rw [get_visits_with_anomalous_durations, mem_sortBy, List.mem_filterMap] at hr
    obtain ⟨w, hwmem, hrow⟩ := hr
    rw [anomalyRowOf] at hrow
    split at hrow
    · exact absurd hrow (by simp)
    · split at hrow
      · rename_i hcond
        cases hrow
        exact ⟨rfl, rfl, hcond.1, rfl⟩
      · exact absurd hrow (by simp)

/-- Witness for C9 at the P4 example database with threshold 200. -/
theorem claim_C9_witness :
    anomalyRowW ∈ get_visits_with_anomalous_durations dbFourVisits 200 ∧
    anomalyRowW.avg_duration = avgDurationOf dbFourVisits anomalyRowW.visit.clientId ∧
    anomalyRowW.total_visits = visitCountOf dbFourVisits anomalyRowW.visit.clientId ∧
    2 ≤ anomalyRowW.total_visits ∧
    anomalyRowW.percent_of_avg =
      anomalyRowW.visit.durationMinutes * 100 / anomalyRowW.avg_duration := by
  have hcond : 2 ≤ visitCountOf dbFourVisits vLong.clientId ∧
      0 < avgDurationOf dbFourVisits vLong.clientId ∧
      (200 : ℚ) ≤ vLong.durationMinutes * 100 / avgDurationOf dbFourVisits vLong.clientId := by
    refine ⟨by rw [show visitCountOf dbFourVisits vLong.clientId = 4 from rfl]; norm_num,
      ?_, ?_⟩
    · rw [show vLong.clientId = 1 from rfl, avg_dbFourVisits]
      norm_num
    · rw [show vLong.clientId = 1 from rfl, avg_dbFourVisits,
        show vLong.durationMinutes = 300 from rfl]
      norm_num
  have hpre : anomalyRowOf dbFourVisits 200 vLong =
      if 2 ≤ visitCountOf dbFourVisits vLong.clientId ∧
          0 < avgDurationOf dbFourVisits vLong.clientId ∧
          (200 : ℚ) ≤ vLong.durationMinutes * 100 / avgDurationOf dbFourVisits vLong.clientId
      then some anomalyRowW else none := by
    rw [anomalyRowOf, show dbFourVisits.clients.find? (fun c => c.id == vLong.clientId) =
      some cW from rfl]
    rfl
  have hmemrow : anomalyRowW ∈ get_visits_with_anomalous_durations dbFourVisits 200 := by
    rw [get_visits_with_anomalous_durations, mem_sortBy, List.mem_filterMap]
    exact ⟨vLong, by simp [dbFourVisits], by rw [hpre, if_pos hcond]⟩
  obtain ⟨h1, h2, h3, h4⟩ :=
    (claim_C9_anomaly_order_and_fields dbFourVisits 200).2 anomalyRowW hmemrow
  exact ⟨hmemrow, h1, h2, h3, h4⟩
